import Mathlib

/-!
Shallow embedding of the area air-quality aggregation engine of
`src/main.py` (Jakarta weather bot).

The embedding follows the source function by function:
`get_aqi_level` (line 72), `fetch_aqi_for_station` (line 109),
`get_multiple_aqi_readings_for_area` (line 167), and the ordering pass of
`format_aqi_map_message` (lines 316-329).  Network effects are modelled by
passing each configured source's outcome (a parsed JSON response or a
raised exception) explicitly; Python's stable `sort` is modelled by the
structurally recursive stable `List.insertionSort`; Python 3's builtin
`round` (round half to even) applied to `sum/len` of integer samples is
modelled exactly over the integers by `roundHalfEvenDiv` and related to
the rational mean by `avgRound_eq_pyRound_mean`.
-/

namespace JakartaAqi

/-- Severity bands returned by `get_aqi_level` in `src/main.py` line 72.
Each constructor stands for one of the returned label/emoji pairs; `na`
models the `ValueError`/`TypeError` branch returning the `N/A` label. -/
inductive AqiLevel where
  | good
  | moderate
  | unhealthySensitive
  | unhealthy
  | veryUnhealthy
  | hazardous
  | na
deriving DecidableEq, Repr

/-- Embedding of `get_aqi_level` (`src/main.py` line 72): the input is the
aggregate AQI, `none` standing for a non-numeric input (for which `int()`
raises and the function returns the `N/A` label). -/
def get_aqi_level : Option Int → AqiLevel
  | none => .na
  | some aqi =>
    if aqi ≤ 50 then .good
    else if aqi ≤ 100 then .moderate
    else if aqi ≤ 150 then .unhealthySensitive
    else if aqi ≤ 200 then .unhealthy
    else if aqi ≤ 300 then .veryUnhealthy
    else .hazardous

/-- The `aqi` field of the upstream JSON payload as consumed by
`fetch_aqi_for_station`: a JSON number, a string token, or JSON null.
A payload with no `aqi` key is modelled as `str "N/A"`, the default that
`data.get` supplies at `src/main.py` line 117. -/
inductive AqiField where
  | num (n : Int)
  | str (s : String)
  | null
deriving DecidableEq, Repr

/-- A transport-successful upstream response: its `status` string, whether
a `data` object is present, and the `aqi` field. -/
structure UpstreamResponse where
  status : String
  hasData : Bool
  aqi : AqiField
deriving DecidableEq, Repr

/-- The failure taxonomy of one network query: timeout, transport error,
or malformed payload.  In `src/main.py` all three surface as exceptions
caught by the blanket handler at line 133. -/
inductive FetchErrorKind where
  | timeout
  | transport
  | protocol
deriving DecidableEq, Repr

/-- Outcome of one network query against a single source: either a parsed
JSON response or a raised exception. -/
inductive FetchOutcome where
  | response (r : UpstreamResponse)
  | failure (e : FetchErrorKind)
deriving DecidableEq, Repr

/-- Numeric value of a decimal digit character, absence otherwise. -/
def digitVal (c : Char) : Option Nat :=
  if '0' ≤ c ∧ c ≤ '9' then some (c.toNat - '0'.toNat) else none

/-- Accumulating decimal parser over a character list: yields a value only
when at least one character was read and every character was a digit. -/
def parseNatAux : Option Nat → List Char → Option Nat
  | acc, [] => acc
  | acc, c :: cs =>
    match digitVal c with
    | none => none
    | some d => parseNatAux (some (acc.getD 0 * 10 + d)) cs

/-- Model of Python's `int()` applied to a string: an optional minus sign
followed by a nonempty run of decimal digits parses to its value, and any
other string raises `ValueError`, modelled as absence. -/
def pyParseInt (s : String) : Option Int :=
  match s.data with
  | [] => none
  | c :: cs =>
    if c = '-' then (parseNatAux none cs).map fun n => -(n : Int)
    else (parseNatAux none s.data).map fun n => (n : Int)

/-- Sanitization of the `aqi` field exactly as the body of
`fetch_aqi_for_station` performs it (`src/main.py` lines 117-126): the
sentinels dash, empty string, null and the `N/A` default yield absence, a
string that `int()` cannot parse yields absence, and otherwise the numeric
value is returned. -/
def parseAqiValue : AqiField → Option Int
  | .null => none
  | .num n => some n
  | .str s =>
    if s = "-" ∨ s = "" ∨ s = "N/A" then none
    else pyParseInt s

/-- Embedding of `fetch_aqi_for_station` (`src/main.py` line 109): any
raised exception is swallowed and yields `None` (line 133); a response is
used only when its status is `ok` and it carries a `data` object
(line 116); a sentinel or unparseable `aqi` value yields `None`.  The
returned value is the sanitized reading; the station tag and timestamp of
the returned dictionary are handled at the resolver level. -/
def fetch_aqi_for_station : FetchOutcome → Option Int
  | .failure _ => none
  | .response r =>
    if r.status = "ok" ∧ r.hasData then parseAqiValue r.aqi else none

/-- Tag recording which configured source produced a sample: the index of
a named station in the area's `stations` list, or the index of a geo-probe
in the area's `coordinates` list.  This models the `sources_used` strings
built at `src/main.py` lines 191 and 207. -/
inductive SourceTag where
  | station (i : Nat)
  | point (i : Nat)
deriving DecidableEq, Repr

/-- The present samples collected from a list of per-source outcomes, each
tagged with the producing source, in query order. -/
def taggedSamples (mk : Nat → SourceTag) (outs : List FetchOutcome) :
    List (SourceTag × Int) :=
  outs.enum.filterMap fun p =>
    (fetch_aqi_for_station p.2).map fun v => (mk p.1, v)

/-- Result of the source-resolution phase of
`get_multiple_aqi_readings_for_area` (`src/main.py` lines 183-212): the
tagged present samples in collection order, and the indices of the
geo-probes that were actually queried. -/
structure ResolveTrace where
  samples : List (SourceTag × Int)
  probesQueried : List Nat
deriving DecidableEq, Repr

/-- The source-resolution phase (`src/main.py` lines 183-212): every named
station is queried; then, exactly when the named stations yielded fewer
than two present values, every geo-probe is queried in order (the loop at
line 201 has no early exit), and the present probe readings are appended. -/
def get_multiple_samples (stationOuts coordOuts : List FetchOutcome) :
    ResolveTrace :=
  let named := taggedSamples SourceTag.station stationOuts
  if named.length < 2 then
    { samples := named ++ taggedSamples SourceTag.point coordOuts,
      probesQueried := List.range coordOuts.length }
  else
    { samples := named, probesQueried := [] }

/-- The untagged `valid_readings` list, in collection order. -/
def sampleValues (stationOuts coordOuts : List FetchOutcome) : List Int :=
  (get_multiple_samples stationOuts coordOuts).samples.map Prod.snd

/-- The median `sorted(valid_readings)[len(valid_readings)//2]` of
`src/main.py` line 219, via a stable structural sort (for integer values
any correct ascending sort produces the same list as Python's `sorted`). -/
def medianVal (l : List Int) : Int :=
  (List.insertionSort (· ≤ ·) l).getD (l.length / 2) 0

/-- The outlier filter and its fallback (`src/main.py` lines 216-223):
with at least three samples, keep each sample whose absolute deviation
from the median is strictly below half the median (the Python test
`abs(r - median_val) < median_val * 0.5` over integer `r` and
`median_val`, the float product being exact, is equivalent to
`2 * |r - m| < m`), and use the filtered list only when at least two
samples survive; otherwise, and with fewer than three samples, the list
is unchanged. -/
def contributing (valid : List Int) : List Int :=
  if 3 ≤ valid.length then
    let m := medianVal valid
    let filtered := valid.filter fun r => decide (2 * |r - m| < m)
    if 2 ≤ filtered.length then filtered else valid
  else valid

/-- Round half to even of the exact quotient `s / n`, computed over the
integers: `s / (n : Int)` is floor division (`Int.ediv`), `r` the
remainder, and the fractional part `r / n` is compared with one half via
`2 * r` against `n`.  This is the behaviour of Python 3's builtin `round`
applied at `src/main.py` line 225 to `sum(valid_readings) /
len(valid_readings)`: Python 3 rounds ties to the nearest even integer,
and for integer sums and the list lengths involved the float quotient
rounds to the mathematical quotient, making the exact model faithful. -/
def roundHalfEvenDiv (s : Int) (n : Nat) : Int :=
  let f := s / (n : Int)
  let r := s - n * f
  if 2 * r < (n : Int) then f
  else if (n : Int) < 2 * r then f + 1
  else if f % 2 = 0 then f else f + 1

/-- The averaging step `round(sum(valid_readings) / len(valid_readings))`
of `src/main.py` line 225. -/
def avgRound (l : List Int) : Int :=
  roundHalfEvenDiv l.sum l.length

/-- Round half to even on the rationals: the semantics of Python 3's
builtin `round`, stated abstractly for use in specification statements. -/
def pyRound (q : ℚ) : Int :=
  if q - ⌊q⌋ < 1 / 2 then ⌊q⌋
  else if 1 / 2 < q - ⌊q⌋ then ⌊q⌋ + 1
  else if ⌊q⌋ % 2 = 0 then ⌊q⌋ else ⌊q⌋ + 1

/-- Arithmetic mean of a list of integer samples, as a rational. -/
def mean (l : List Int) : ℚ :=
  (l.sum : ℚ) / (l.length : ℚ)

/-- The fields of the `area_info` dictionary computed by
`get_multiple_aqi_readings_for_area` (`src/main.py` lines 169-245) that
the aggregation engine determines: the aggregate (`none` standing for the
`N/A` placeholder), the severity level, the contributing `readings`, and
`data_points`.  The presentation-only fields (name, emoji, source string)
are omitted. -/
structure AreaInfo where
  aqi : Option Int
  level : AqiLevel
  readings : List Int
  data_points : Nat
deriving DecidableEq, Repr

/-- The placeholder `area_info` built at `src/main.py` lines 169-178,
returned unchanged when no valid reading is found; it is also the
fallback dictionary built at lines 266-275 when an area task raises. -/
def noDataInfo : AreaInfo :=
  { aqi := none, level := .na, readings := [], data_points := 0 }

/-- Embedding of `get_multiple_aqi_readings_for_area`
(`src/main.py` lines 167-245): resolve the samples from the given
per-source outcomes, filter outliers, average with rounding, classify. -/
def get_multiple_aqi_readings_for_area
    (stationOuts coordOuts : List FetchOutcome) : AreaInfo :=
  let valid := sampleValues stationOuts coordOuts
  if valid = [] then noDataInfo
  else
    let contrib := contributing valid
    let avg := avgRound contrib
    { aqi := some avg
      level := get_aqi_level (some avg)
      readings := contrib
      data_points := contrib.length }

/-- The sort key comparison of `format_aqi_map_message`
(`src/main.py` lines 318-329): aggregates compare by value and an absent
aggregate (`float('inf')` in the source) compares above every present
one. -/
def keyLe : Option Int → Option Int → Prop
  | some a, some b => a ≤ b
  | some _, none => True
  | none, some _ => False
  | none, none => True

instance : DecidableRel keyLe := fun a b => by
  cases a <;> cases b <;> simp only [keyLe] <;> infer_instance

/-- The comparison `keyLe` lifted to area entries. -/
def entryLe (x y : String × AreaInfo) : Prop :=
  keyLe x.2.aqi y.2.aqi

instance : DecidableRel entryLe := fun x y => by
  unfold entryLe; infer_instance

/-- The ordering pass of `format_aqi_map_message`
(`src/main.py` lines 316-329): a stable ascending sort of the area
entries of the fetched map, keyed by aggregate with absent as plus
infinity.  The entries arrive in the iteration order of the dictionary
built by `fetch_jakarta_aqi_map`, i.e. in the completion order of the
per-area tasks (line 258 iterates `as_completed`); Python's stable
`list.sort` is modelled by the stable `List.insertionSort`. -/
def sortAreas (l : List (String × AreaInfo)) : List (String × AreaInfo) :=
  List.insertionSort entryLe l

/-- Each area entry paired with its one-based rank, its position in the
sorted display order. -/
def rankedAreas (l : List (String × AreaInfo)) :
    List (Nat × String × AreaInfo) :=
  (sortAreas l).enum.map fun p => (p.1 + 1, p.2)

/-- The key order of the `JAKARTA_AREAS` registry dictionary
(`src/main.py` line 21). -/
def registryOrder : List String :=
  ["central", "south", "north", "east", "west"]

/-- Position of an area key in the registry order, used to state the
tiebreak the specification asserts. -/
def registryIndex (k : String) : Nat :=
  registryOrder.indexOf k

/-- Spec-side probe loop, written to follow the specification's words for
collect-multiple mode: geo-probes are queried one after another only
until at least 2 present values have been collected or all probes are
exhausted.  Used solely to compare the specified resolver with the
implemented one. -/
def specProbeLoop (i : Nat) (acc : List (SourceTag × Int)) :
    List FetchOutcome → ResolveTrace
  | [] => ⟨acc, []⟩
  | o :: rest =>
    if 2 ≤ acc.length then ⟨acc, []⟩
    else
      let acc2 :=
        match fetch_aqi_for_station o with
        | none => acc
        | some v => acc ++ [(SourceTag.point i, v)]
      let t := specProbeLoop (i + 1) acc2 rest
      ⟨t.samples, i :: t.probesQueried⟩

/-- Spec-side resolver, following the specification's words: query all
named sources; if fewer than 2 present values result, query geo-probes
until at least 2 present values are collected or all probes are
exhausted. -/
def spec_get_multiple_samples (stationOuts coordOuts : List FetchOutcome) :
    ResolveTrace :=
  let named := taggedSamples SourceTag.station stationOuts
  if named.length < 2 then specProbeLoop 0 named coordOuts
  else ⟨named, []⟩

/-- The sanitized reading the configured source behind a tag produced, if
any: lookup of the tagged source's outcome followed by the per-source
fetch. -/
def sourceOutcome (stationOuts coordOuts : List FetchOutcome) :
    SourceTag → Option Int
  | .station i => stationOuts[i]?.bind fetch_aqi_for_station
  | .point i => coordOuts[i]?.bind fetch_aqi_for_station

/-- The sentinel `aqi` values enumerated at `src/main.py` lines 119-126:
dash, empty string, null, the `N/A` default, or a non-numeric token. -/
def isSentinel : AqiField → Prop
  | .num _ => False
  | .null => True
  | .str s => s = "-" ∨ s = "" ∨ s = "N/A" ∨ pyParseInt s = none

instance : DecidablePred isSentinel := fun f => by
  cases f <;> simp only [isSentinel] <;> infer_instance

instance : IsTotal (String × AreaInfo) entryLe := by
  constructor
  intro x y
  unfold entryLe keyLe
  rcases x.2.aqi with _ | a <;> rcases y.2.aqi with _ | b <;> simp
  exact Int.le_total a b

instance : IsTrans (String × AreaInfo) entryLe := by
  constructor
  intro x y z
  unfold entryLe keyLe
  rcases x.2.aqi with _ | a <;> rcases y.2.aqi with _ | b <;>
    rcases z.2.aqi with _ | c <;> simp
  exact fun h1 h2 => le_trans h1 h2

/-- A successful upstream outcome carrying the given numeric reading. -/
def outcomeOf (n : Int) : FetchOutcome :=
  .response ⟨"ok", true, .num n⟩

/-- The engine output for an area whose single source read 50; used in
concrete instances. -/
def info50 : AreaInfo :=
  get_multiple_aqi_readings_for_area [outcomeOf 50] []

/-! ### Helper lemmas -/

theorem contributing_ne_nil (l : List Int) (h : l ≠ []) :
    contributing l ≠ [] := by
  simp only [contributing]
  by_cases h3 : 3 ≤ l.length
  · simp only [if_pos h3]
    by_cases h2 :
        2 ≤ (l.filter fun r => decide (2 * |r - medianVal l| < medianVal l)).length
    · simp only [if_pos h2]
      intro hnil
      rw [hnil] at h2
      simp at h2
    · simp only [if_neg h2]
      exact h
  · simp only [if_neg h3]
    exact h

theorem roundHalfEvenDiv_eq_pyRound (s : Int) (n : Nat) (hn : 0 < n) :
    roundHalfEvenDiv s n = pyRound ((s : ℚ) / (n : ℚ)) := by
  have hnQ : (0 : ℚ) < (n : ℚ) := by exact_mod_cast hn
  have hfl : ⌊(s : ℚ) / (n : ℚ)⌋ = s / (n : ℤ) :=
    Rat.floor_intCast_div_natCast s n
  have hfrac : (s : ℚ) / (n : ℚ) - ((s / (n : ℤ) : ℤ) : ℚ) =
      ((s - (n : ℤ) * (s / (n : ℤ)) : ℤ) : ℚ) / (n : ℚ) := by
    push_cast
    field_simp
  have hlt : ∀ r : ℤ, (((r : ℤ) : ℚ) / (n : ℚ) < 1 / 2 ↔ 2 * r < (n : ℤ)) := by
    intro r
    rw [div_lt_iff₀ hnQ, ← Int.cast_lt (R := ℚ) (m := 2 * r) (n := (n : ℤ))]
    push_cast
    constructor <;> intro h <;> linarith
  have hgt : ∀ r : ℤ, (1 / 2 < ((r : ℤ) : ℚ) / (n : ℚ) ↔ (n : ℤ) < 2 * r) := by
    intro r
    rw [lt_div_iff₀ hnQ, ← Int.cast_lt (R := ℚ) (m := (n : ℤ)) (n := 2 * r)]
    push_cast
    constructor <;> intro h <;> linarith
  simp only [roundHalfEvenDiv, pyRound, hfl, hfrac, hlt, hgt]

theorem avgRound_eq_pyRound_mean (l : List Int) (h : l ≠ []) :
    avgRound l = pyRound (mean l) := by
  have hn : 0 < l.length := List.length_pos.mpr h
  simpa only [mean] using roundHalfEvenDiv_eq_pyRound l.sum l.length hn

theorem pyRound_nearest (q : ℚ) : |q - (pyRound q : ℚ)| ≤ 1 / 2 := by
  have h0 : (⌊q⌋ : ℚ) ≤ q := Int.floor_le q
  have h1 : q < ⌊q⌋ + 1 := Int.lt_floor_add_one q
  simp only [pyRound]
  split_ifs with ha hb hc
  · rw [abs_le]
    exact ⟨by linarith, by linarith⟩
  · rw [abs_le]
    refine ⟨by push_cast; linarith, by push_cast; linarith⟩
  · rw [not_lt] at ha hb
    rw [abs_le]
    exact ⟨by linarith, by linarith⟩
  · rw [not_lt] at ha hb
    rw [abs_le]
    refine ⟨by push_cast; linarith, by push_cast; linarith⟩

theorem pyRound_int_add_half (k : Int) :
    pyRound ((k : ℚ) + 1 / 2) = if k % 2 = 0 then k else k + 1 := by
  have hhalf : ⌊(1 / 2 : ℚ)⌋ = 0 := by
    rw [Int.floor_eq_zero_iff]
    constructor <;> norm_num
  have hfl : ⌊(k : ℚ) + 1 / 2⌋ = k := by
    rw [Int.floor_int_add, hhalf]
    omega
  have he : (k : ℚ) + 1 / 2 - ((k : ℤ) : ℚ) = 1 / 2 := by ring
  simp only [pyRound, hfl, he, lt_irrefl, if_false]

theorem taggedSamples_eq_nil {mk : Nat → SourceTag} {outs : List FetchOutcome}
    (h : ∀ o ∈ outs, fetch_aqi_for_station o = none) :
    taggedSamples mk outs = [] := by
  simp only [taggedSamples]
  rw [List.filterMap_eq_nil_iff]
  intro p hp
  have hp2 : p.2 ∈ outs := by
    have hm := List.mem_map_of_mem Prod.snd hp
    rwa [List.enum_eq_enumFrom, List.enumFrom_map_snd] at hm
  rw [h p.2 hp2]
  rfl

theorem taggedSamples_mem {mk : Nat → SourceTag} {outs : List FetchOutcome}
    {t : SourceTag} {v : Int} (h : (t, v) ∈ taggedSamples mk outs) :
    ∃ i, t = mk i ∧ outs[i]?.bind fetch_aqi_for_station = some v := by
  simp only [taggedSamples] at h
  rcases List.mem_filterMap.mp h with ⟨p, hp, hmap⟩
  rcases Option.map_eq_some'.mp hmap with ⟨w, hw, heq⟩
  have hidx : outs[p.1]? = some p.2 := List.mem_enum_iff_getElem?.mp hp
  refine ⟨p.1, ?_, ?_⟩
  · exact (congrArg Prod.fst heq).symm
  · rw [hidx]
    have hv : w = v := congrArg Prod.snd heq
    rw [← hv]
    exact hw

theorem sortAreas_sorted (l : List (String × AreaInfo)) :
    (sortAreas l).Sorted entryLe :=
  List.sorted_insertionSort entryLe l

theorem sortAreas_perm (l : List (String × AreaInfo)) :
    (sortAreas l).Perm l :=
  List.perm_insertionSort entryLe l

theorem sortAreas_stable {l : List (String × AreaInfo)}
    {x y : String × AreaInfo} (hxy : entryLe x y) (h : List.Sublist [x, y] l) :
    List.Sublist [x, y] (sortAreas l) :=
  List.pair_sublist_insertionSort hxy h

theorem sortAreas_none_after (l : List (String × AreaInfo)) (i j : Nat)
    (hi : i < (sortAreas l).length) (hj : j < (sortAreas l).length)
    (hij : i < j) (hnone : ((sortAreas l).get ⟨i, hi⟩).2.aqi = none) :
    ((sortAreas l).get ⟨j, hj⟩).2.aqi = none := by
  have hrel := (sortAreas_sorted l).rel_get_of_lt
    (a := ⟨i, hi⟩) (b := ⟨j, hj⟩) hij
  rcases hb : ((sortAreas l).get ⟨j, hj⟩).2.aqi with _ | b
  · rfl
  · exfalso
    unfold entryLe at hrel
    rw [hnone, hb] at hrel
    simp [keyLe] at hrel

theorem rankedAreas_rank (l : List (String × AreaInfo)) (i : Nat)
    (hi : i < (rankedAreas l).length) :
    ((rankedAreas l).get ⟨i, hi⟩).1 = i + 1 := by
  simp only [rankedAreas, List.get_eq_getElem, List.getElem_map,
    List.enum_eq_enumFrom, List.getElem_enumFrom]
  omega

/-! ### Claim theorems -/

/-- C1: for every area with at least one valid sample, the aggregate
equals round(mean(contributing)), the arithmetic mean of the post-filter
contributing samples rounded to the nearest integer (the rounded value is
within one half of the mean). -/
theorem c1_aggregate_eq_round_mean_contributing
    (stationOuts coordOuts : List FetchOutcome)
    (h : sampleValues stationOuts coordOuts ≠ []) :
    (get_multiple_aqi_readings_for_area stationOuts coordOuts).aqi =
      some (pyRound (mean
        (get_multiple_aqi_readings_for_area stationOuts coordOuts).readings)) ∧
    |mean (get_multiple_aqi_readings_for_area stationOuts coordOuts).readings -
        (pyRound (mean
          (get_multiple_aqi_readings_for_area
            stationOuts coordOuts).readings) : ℚ)| ≤ 1 / 2 := by
  constructor
  · simp only [get_multiple_aqi_readings_for_area, if_neg h]
    exact congrArg some (avgRound_eq_pyRound_mean _ (contributing_ne_nil _ h))
  · exact pyRound_nearest _

/-- Witness for C1 at the concrete samples 40, 42, 45 (Scenario A of the
specification). -/
theorem c1_witness :
    (get_multiple_aqi_readings_for_area
        [outcomeOf 40, outcomeOf 42, outcomeOf 45] []).aqi =
      some (pyRound (mean
        (get_multiple_aqi_readings_for_area
          [outcomeOf 40, outcomeOf 42, outcomeOf 45] []).readings)) ∧
    |mean (get_multiple_aqi_readings_for_area
          [outcomeOf 40, outcomeOf 42, outcomeOf 45] []).readings -
        (pyRound (mean
          (get_multiple_aqi_readings_for_area
            [outcomeOf 40, outcomeOf 42, outcomeOf 45] []).readings) : ℚ)| ≤
      1 / 2 :=
  c1_aggregate_eq_round_mean_contributing
    [outcomeOf 40, outcomeOf 42, outcomeOf 45] [] (by decide)

/-- C2: with fewer than 3 samples the contributing list is the sample list
unchanged; with 3 or more samples a sample is retained exactly when its
absolute deviation from the median is strictly below half the median
(stated both in the integer form used by the embedding and in the
rational form of the specification), except that when fewer than 2
samples survive the filter the unfiltered list is used. -/
theorem c2_outlier_filter_cases (valid : List Int) :
    (valid.length < 3 → contributing valid = valid) ∧
    (3 ≤ valid.length →
      (2 ≤ (valid.filter fun r =>
          decide (2 * |r - medianVal valid| < medianVal valid)).length →
        contributing valid =
          valid.filter fun r =>
            decide (2 * |r - medianVal valid| < medianVal valid)) ∧
      ((valid.filter fun r =>
          decide (2 * |r - medianVal valid| < medianVal valid)).length < 2 →
        contributing valid = valid)) ∧
    (∀ r mv : Int,
      2 * |r - mv| < mv ↔ |(r : ℚ) - (mv : ℚ)| < (mv : ℚ) * (1 / 2)) := by
  refine ⟨?_, fun h3 => ⟨?_, ?_⟩, ?_⟩
  · intro hlt
    simp only [contributing]
    rw [if_neg (by omega)]
  · intro h2
    simp only [contributing]
    rw [if_pos h3, if_pos h2]
  · intro h2
    simp only [contributing]
    rw [if_pos h3, if_neg (by omega)]
  · intro r mv
    rw [show (r : ℚ) - (mv : ℚ) = ((r - mv : ℤ) : ℚ) by push_cast; ring,
      ← Int.cast_abs]
    constructor
    · intro h
      have h2 : ((2 * |r - mv| : ℤ) : ℚ) < ((mv : ℤ) : ℚ) := by exact_mod_cast h
      push_cast at h2 ⊢
      linarith
    · intro h
      push_cast at h
      have h2 : ((2 * |r - mv| : ℤ) : ℚ) < ((mv : ℤ) : ℚ) := by
        push_cast
        linarith
      exact_mod_cast h2

/-- Witness for C2 at the concrete samples 10, 12, 500 (Scenario B of the
specification): the median is 12, sample 500 is rejected, and the
filtered list [10, 12] survives. -/
theorem c2_witness : contributing [10, 12, 500] = [10, 12] := by
  have h := ((c2_outlier_filter_cases [10, 12, 500]).2.1 (by decide)).1 (by decide)
  rw [h]
  decide

/-- C5: the aggregate is absent if and only if the contributing sample
list is empty, for every output of the aggregation pass. -/
theorem c5_aggregate_absent_iff_no_contributing
    (stationOuts coordOuts : List FetchOutcome) :
    (get_multiple_aqi_readings_for_area stationOuts coordOuts).aqi = none ↔
      (get_multiple_aqi_readings_for_area stationOuts coordOuts).readings =
        [] := by
  by_cases h : sampleValues stationOuts coordOuts = []
  · simp [get_multiple_aqi_readings_for_area, h, noDataInfo]
  · have hc := contributing_ne_nil (sampleValues stationOuts coordOuts) h
    simp [get_multiple_aqi_readings_for_area, h, hc]

/-- Witness for C5 at an area with no configured sources. -/
theorem c5_witness :
    (get_multiple_aqi_readings_for_area [] []).aqi = none ↔
      (get_multiple_aqi_readings_for_area [] []).readings = [] :=
  c5_aggregate_absent_iff_no_contributing [] []

/-- C6: the severity classifier uses inclusive upper bounds: at most 50 is
Good, 51 to 100 Moderate, 101 to 150 Unhealthy for Sensitive Groups, 151
to 200 Unhealthy, 201 to 300 Very Unhealthy, at least 301 Hazardous, an
absent aggregate N/A; in particular 50, 100, 150, 200, 300 classify as
the lower band and 51, 101, 151, 201, 301 as the next band up. -/
theorem c6_severity_bands :
    (∀ n : Int, n ≤ 50 → get_aqi_level (some n) = .good) ∧
    (∀ n : Int, 51 ≤ n → n ≤ 100 → get_aqi_level (some n) = .moderate) ∧
    (∀ n : Int, 101 ≤ n → n ≤ 150 →
      get_aqi_level (some n) = .unhealthySensitive) ∧
    (∀ n : Int, 151 ≤ n → n ≤ 200 → get_aqi_level (some n) = .unhealthy) ∧
    (∀ n : Int, 201 ≤ n → n ≤ 300 → get_aqi_level (some n) = .veryUnhealthy) ∧
    (∀ n : Int, 301 ≤ n → get_aqi_level (some n) = .hazardous) ∧
    get_aqi_level none = .na ∧
    (get_aqi_level (some 50) = .good ∧ get_aqi_level (some 51) = .moderate ∧
      get_aqi_level (some 100) = .moderate ∧
      get_aqi_level (some 101) = .unhealthySensitive ∧
      get_aqi_level (some 150) = .unhealthySensitive ∧
      get_aqi_level (some 151) = .unhealthy ∧
      get_aqi_level (some 200) = .unhealthy ∧
      get_aqi_level (some 201) = .veryUnhealthy ∧
      get_aqi_level (some 300) = .veryUnhealthy ∧
      get_aqi_level (some 301) = .hazardous) := by
  refine ⟨?_, ?_, ?_, ?_, ?_, ?_, rfl, by decide⟩
  · intro n h1
    simp only [get_aqi_level]
    rw [if_pos (by omega)]
  · intro n h1 h2
    simp only [get_aqi_level]
    rw [if_neg (by omega), if_pos (by omega)]
  · intro n h1 h2
    simp only [get_aqi_level]
    rw [if_neg (by omega), if_neg (by omega), if_pos (by omega)]
  · intro n h1 h2
    simp only [get_aqi_level]
    rw [if_neg (by omega), if_neg (by omega), if_neg (by omega),
      if_pos (by omega)]
  · intro n h1 h2
    simp only [get_aqi_level]
    rw [if_neg (by omega), if_neg (by omega), if_neg (by omega),
      if_neg (by omega), if_pos (by omega)]
  · intro n h1
    simp only [get_aqi_level]
    rw [if_neg (by omega), if_neg (by omega), if_neg (by omega),
      if_neg (by omega), if_neg (by omega)]

/-- Witness for C6 at the aggregate 42. -/
theorem c6_witness : get_aqi_level (some 42) = .good :=
  c6_severity_bands.1 42 (by decide)

/-- C3 counterexample: with the fetched map arriving in the completion
order south before central and the two areas tied at aggregate 50, the
assembled order keeps south first although the registry orders central
before south: the tiebreak is the iteration order of the fetched map
(completion order of the per-area tasks), not registry order. -/
theorem c3_counterexample :
    sortAreas [("south", info50), ("central", info50)] =
      [("south", info50), ("central", info50)] ∧
    info50.aqi = some 50 ∧
    registryIndex "central" < registryIndex "south" := by
  decide

/-- C3 amended: the assembled result set is sorted ascending by aggregate
with an absent aggregate treated as plus infinity, it is a permutation of
the fetched map, ties are broken stably by the order the entries occur in
the fetched map (the completion order of the per-area tasks, which need
not be registry order), every area without data is placed after every
area with data, and each area's rank is its 1-based position. -/
theorem c3_ranking_amended (l : List (String × AreaInfo)) :
    (sortAreas l).Sorted entryLe ∧
    (sortAreas l).Perm l ∧
    (∀ x y : String × AreaInfo, entryLe x y → List.Sublist [x, y] l →
      List.Sublist [x, y] (sortAreas l)) ∧
    (∀ i j (hi : i < (sortAreas l).length) (hj : j < (sortAreas l).length),
      i < j → ((sortAreas l).get ⟨i, hi⟩).2.aqi = none →
        ((sortAreas l).get ⟨j, hj⟩).2.aqi = none) ∧
    (∀ i (hi : i < (rankedAreas l).length),
      ((rankedAreas l).get ⟨i, hi⟩).1 = i + 1) :=
  ⟨sortAreas_sorted l, sortAreas_perm l,
    fun _ _ hxy h => sortAreas_stable hxy h,
    fun i j hi hj hij hnone => sortAreas_none_after l i j hi hj hij hnone,
    fun i hi => rankedAreas_rank l i hi⟩

/-- Witness for the amended C3: in a concrete two-entry map whose first
sorted entry has no data, the second sorted entry has no data either. -/
theorem c3_witness :
    ((sortAreas [("north", noDataInfo), ("west", noDataInfo)]).get
        ⟨1, by decide⟩).2.aqi = none :=
  (c3_ranking_amended [("north", noDataInfo), ("west", noDataInfo)]).2.2.2.1
    0 1 (by decide) (by decide) (by decide) (by decide)

/-- C4 counterexample: with one present named-station value and two
geo-probes both present, the implementation queries every geo-probe and
keeps every probe reading (three samples, both probes queried), whereas
the claimed resolver stops probing once 2 present values are collected
(two samples, one probe queried). -/
theorem c4_counterexample :
    get_multiple_samples [outcomeOf 10] [outcomeOf 20, outcomeOf 30] =
      { samples := [(.station 0, 10), (.point 0, 20), (.point 1, 30)],
        probesQueried := [0, 1] } ∧
    spec_get_multiple_samples [outcomeOf 10] [outcomeOf 20, outcomeOf 30] =
      { samples := [(.station 0, 10), (.point 0, 20)],
        probesQueried := [0] } ∧
    get_multiple_samples [outcomeOf 10] [outcomeOf 20, outcomeOf 30] ≠
      spec_get_multiple_samples [outcomeOf 10] [outcomeOf 20, outcomeOf 30] := by
  decide

/-- C4 amended: all named sources are always queried; geo-probes are
queried exactly when the named sources yield fewer than 2 present values,
and in that case all geo-probes are queried regardless of how many
present values accumulate; the resolver returns every present sample
obtained, and every returned sample carries the tag of the source that
produced it. -/
theorem c4_resolution_amended (stationOuts coordOuts : List FetchOutcome) :
    (2 ≤ (taggedSamples SourceTag.station stationOuts).length →
      get_multiple_samples stationOuts coordOuts =
        ⟨taggedSamples SourceTag.station stationOuts, []⟩) ∧
    ((taggedSamples SourceTag.station stationOuts).length < 2 →
      get_multiple_samples stationOuts coordOuts =
        ⟨taggedSamples SourceTag.station stationOuts ++
            taggedSamples SourceTag.point coordOuts,
          List.range coordOuts.length⟩) ∧
    (∀ t v, (t, v) ∈ (get_multiple_samples stationOuts coordOuts).samples →
      sourceOutcome stationOuts coordOuts t = some v) := by
  refine ⟨?_, ?_, ?_⟩
  · intro h2
    simp only [get_multiple_samples]
    rw [if_neg (by omega)]
  · intro h2
    simp only [get_multiple_samples]
    rw [if_pos (by omega)]
  · intro t v hm
    have hsplit : (t, v) ∈ taggedSamples SourceTag.station stationOuts ∨
        (t, v) ∈ taggedSamples SourceTag.point coordOuts := by
      simp only [get_multiple_samples] at hm
      by_cases hlen : (taggedSamples SourceTag.station stationOuts).length < 2
      · rw [if_pos hlen] at hm
        exact List.mem_append.mp hm
      · rw [if_neg hlen] at hm
        exact Or.inl hm
    rcases hsplit with hs | hs
    · rcases taggedSamples_mem hs with ⟨i, hti, hv⟩
      rw [hti]
      simpa [sourceOutcome] using hv
    · rcases taggedSamples_mem hs with ⟨i, hti, hv⟩
      rw [hti]
      simpa [sourceOutcome] using hv

/-- Witness for the amended C4: one present station value forces the
probe phase, which queries the single configured probe. -/
theorem c4_witness :
    get_multiple_samples [outcomeOf 10] [outcomeOf 99] =
      ⟨taggedSamples SourceTag.station [outcomeOf 10] ++
          taggedSamples SourceTag.point [outcomeOf 99],
        List.range [outcomeOf 99].length⟩ :=
  (c4_resolution_amended [outcomeOf 10] [outcomeOf 99]).2.1 (by decide)

/-- C7: an area all of whose sources yield no reading produces the valid
no-data result (absent aggregate, level N/A) as a normal return value,
and in the assembled ordering any entry without data is placed after
every entry with data. -/
theorem c7_exhausted_area_yields_nodata
    (stationOuts coordOuts : List FetchOutcome)
    (h : ∀ o ∈ stationOuts ++ coordOuts, fetch_aqi_for_station o = none) :
    get_multiple_aqi_readings_for_area stationOuts coordOuts = noDataInfo ∧
    (get_multiple_aqi_readings_for_area stationOuts coordOuts).aqi = none ∧
    (get_multiple_aqi_readings_for_area stationOuts coordOuts).level = .na ∧
    (∀ (l : List (String × AreaInfo)) i j
        (hi : i < (sortAreas l).length) (hj : j < (sortAreas l).length),
      i < j → ((sortAreas l).get ⟨i, hi⟩).2.aqi = none →
        ((sortAreas l).get ⟨j, hj⟩).2.aqi = none) := by
  have hs : ∀ o ∈ stationOuts, fetch_aqi_for_station o = none := fun o ho =>
    h o (List.mem_append_left _ ho)
  have hcc : ∀ o ∈ coordOuts, fetch_aqi_for_station o = none := fun o ho =>
    h o (List.mem_append_right _ ho)
  have hv : sampleValues stationOuts coordOuts = [] := by
    simp [sampleValues, get_multiple_samples, taggedSamples_eq_nil hs,
      taggedSamples_eq_nil hcc]
  have hmain : get_multiple_aqi_readings_for_area stationOuts coordOuts =
      noDataInfo := by
    simp [get_multiple_aqi_readings_for_area, hv]
  refine ⟨hmain, by rw [hmain]; rfl, by rw [hmain]; rfl, ?_⟩
  exact fun l i j hi hj hij hnone => sortAreas_none_after l i j hi hj hij hnone

/-- Witness for C7: a timed-out station and a sentinel-valued geo-probe
yield the no-data result. -/
theorem c7_witness :
    get_multiple_aqi_readings_for_area [FetchOutcome.failure .timeout]
        [FetchOutcome.response ⟨"ok", true, .str "-"⟩] = noDataInfo :=
  (c7_exhausted_area_yields_nodata _ _ (by decide)).1

/-- C8 counterexample: a transport success carrying the dash sentinel and
each kind of fetch failure all return the very same value (`None`), so
absence of data is not distinguished from fetch failure in the return
value. -/
theorem c8_counterexample :
    fetch_aqi_for_station (.response ⟨"ok", true, .str "-"⟩) = none ∧
    fetch_aqi_for_station (.failure .timeout) = none ∧
    fetch_aqi_for_station (.failure .transport) = none ∧
    fetch_aqi_for_station (.failure .protocol) = none ∧
    fetch_aqi_for_station (.response ⟨"ok", true, .str "-"⟩) =
      fetch_aqi_for_station (.failure .timeout) := by
  decide

/-- C8 amended: a transport success whose status is not ok, or whose aqi
value is a sentinel (dash, empty string, null, the N/A default, or a
non-numeric token), returns reading-absent rather than raising; every
fetch failure (timeout, transport, protocol) returns the same absent
value, so absence is not distinguishable from failure in the return
value. -/
theorem c8_absent_not_error_amended (r : UpstreamResponse) :
    (r.status ≠ "ok" → fetch_aqi_for_station (.response r) = none) ∧
    (isSentinel r.aqi → fetch_aqi_for_station (.response r) = none) ∧
    (∀ e : FetchErrorKind, fetch_aqi_for_station (.failure e) = none) := by
  refine ⟨?_, ?_, fun e => rfl⟩
  · intro hst
    simp only [fetch_aqi_for_station]
    rw [if_neg]
    intro hand
    exact hst hand.1
  · intro hsent
    simp only [fetch_aqi_for_station]
    split_ifs with hok
    · rcases hr : r.aqi with n | s | _
      · rw [hr] at hsent
        exact absurd hsent (by simp [isSentinel])
      · rw [hr] at hsent
        simp only [isSentinel] at hsent
        simp only [parseAqiValue]
        rcases hsent with hcase | hcase | hcase | hcase
        · rw [if_pos (Or.inl hcase)]
        · rw [if_pos (Or.inr (Or.inl hcase))]
        · rw [if_pos (Or.inr (Or.inr hcase))]
        · by_cases hs3 : s = "-" ∨ s = "" ∨ s = "N/A"
          · rw [if_pos hs3]
          · rw [if_neg hs3]
            exact hcase
      · simp [parseAqiValue]
    · rfl

/-- Witness for the amended C8 at a response with a non-ok status. -/
theorem c8_witness :
    fetch_aqi_for_station (.response ⟨"error", true, .num 7⟩) = none :=
  (c8_absent_not_error_amended ⟨"error", true, .num 7⟩).1 (by decide)

/-- C9: the tie-break of the rounding applied to the mean is round half
to even: the rounding used by the aggregator agrees with `pyRound` on
every nonempty sample list, `pyRound` sends an integer plus one half to
the even neighbour, and the samples 41, 42, 43, 44 (mean 42 plus one
half) aggregate to 42, the even neighbour, not upward to 43. -/
theorem c9_round_half_to_even :
    (∀ k : Int, pyRound ((k : ℚ) + 1 / 2) =
      if k % 2 = 0 then k else k + 1) ∧
    (∀ l : List Int, l ≠ [] → avgRound l = pyRound (mean l)) ∧
    mean (contributing [41, 42, 43, 44]) = (42 : ℚ) + 1 / 2 ∧
    avgRound (contributing [41, 42, 43, 44]) = 42 ∧
    (get_multiple_aqi_readings_for_area
        [outcomeOf 41, outcomeOf 42, outcomeOf 43, outcomeOf 44] []).aqi =
      some 42 ∧
    (42 : Int) % 2 = 0 := by
  refine ⟨pyRound_int_add_half, avgRound_eq_pyRound_mean, ?_, by decide,
    by decide, by decide⟩
  have hc : contributing [41, 42, 43, 44] = [41, 42, 43, 44] := by decide
  rw [hc]
  simp [mean]
  norm_num

/-- Witness for C9: the aggregator rounding agrees with `pyRound` on the
concrete list [1, 2]. -/
theorem c9_witness : avgRound [1, 2] = pyRound (mean [1, 2]) :=
  c9_round_half_to_even.2.1 [1, 2] (by decide)

/-- C10: for an even number of samples (at least 4) the median used by
the outlier filter is the element at index n/2 of the sorted samples,
the upper of the two middle values (it is at least the lower middle
value), and on 10, 20, 30, 40 it is 30, which differs from the average
25 of the two middle values. -/
theorem c10_median_upper_middle (l : List Int)
    (h2 : l.length % 2 = 0) (h4 : 4 ≤ l.length) :
    medianVal l = (List.insertionSort (· ≤ ·) l).getD (l.length / 2) 0 ∧
    (List.insertionSort (· ≤ ·) l).getD (l.length / 2 - 1) 0 ≤ medianVal l ∧
    medianVal [10, 20, 30, 40] = 30 ∧
    2 * medianVal [10, 20, 30, 40] ≠ 20 + 30 := by
  refine ⟨rfl, ?_, by decide, by decide⟩
  have hlen : (List.insertionSort (· ≤ ·) l).length = l.length := by
    simp
  have hj : l.length / 2 < (List.insertionSort (· ≤ ·) l).length := by
    rw [hlen]
    omega
  have hi : l.length / 2 - 1 < (List.insertionSort (· ≤ ·) l).length := by
    rw [hlen]
    omega
  rw [medianVal, List.getD_eq_getElem _ _ hi, List.getD_eq_getElem _ _ hj]
  have hsorted := List.sorted_insertionSort (· ≤ ·) l
  have hrel := hsorted.rel_get_of_lt
    (a := ⟨l.length / 2 - 1, hi⟩) (b := ⟨l.length / 2, hj⟩)
    (by simp only [Fin.lt_def]; omega)
  simpa [List.get_eq_getElem] using hrel

/-- Witness for C10 at the concrete samples 1, 2, 3, 4. -/
theorem c10_witness :
    medianVal [1, 2, 3, 4] =
      (List.insertionSort (· ≤ ·) [(1 : Int), 2, 3, 4]).getD
        (([(1 : Int), 2, 3, 4] : List Int).length / 2) 0 :=
  (c10_median_upper_middle [1, 2, 3, 4] (by decide) (by decide)).1

end JakartaAqi
